import Mathlib

/-!
Verification of the wgpu trace player (`player/src/lib.rs`), the trace
capture module (`wgpu-core/src/device/trace.rs`) and the query command
module (`wgpu-core/src/command/query.rs`).

Modelling conventions:
* External payload types that live in the `wgt` / `hal` crates (buffer,
  texture, sampler, pipeline descriptors, copy views, texture layouts,
  render-pass state, ...) are never inspected by the code under study;
  they are carried opaquely and are represented here by `Nat` values.
* Resource ids are `Nat` except where the claim is about the id encoding
  itself, where the spec's (index, epoch, backend) triple is used.
* Backend calls made through the hub (`device_create_buffer`,
  `queue_submit`, ...) and raw commands recorded into a command buffer
  (`pipeline_barrier`, `copy_query_pool_results`) are modelled as
  elements of effect types; a function of the source becomes a Lean
  function returning the ordered list of effects it performs.
* A Rust `panic!` / failed `assert!` / `.unwrap()` on a file read is
  modelled by a `panicked` result carrying the effects performed before
  the panic.  `.unwrap()` on a backend call is not a control path of its
  own: the spec states every backend call is assumed valid by
  construction of a correct trace.
-/

namespace WgpuPlayer

/-- The fixed backend capability set {Vulkan, Metal, Dx12, Dx11}. -/
inductive Backend
  | Vulkan
  | Metal
  | Dx12
  | Dx11
deriving DecidableEq, Repr

/-- Modelled from the spec: a typed resource id is the triple
(index, epoch, backend); the packed bit layout of `wgc::id` is not under
`src/`, only its `unzip`/`zip` interface is used by the player. -/
structure TypedId where
  index : Nat
  epoch : Nat
  backend : Backend
deriving DecidableEq, Repr

/-- Modelled from the spec: `TypedId::unzip` decomposes an id into its
(index, epoch, backend) components. -/
def TypedId.unzip (id : TypedId) : Nat × Nat × Backend :=
  (id.index, id.epoch, id.backend)

/-- Modelled from the spec: `TypedId::zip` builds the id holding the given
index, epoch and backend. -/
def TypedId.zip (index : Nat) (epoch : Nat) (backend : Backend) : TypedId :=
  ⟨index, epoch, backend⟩

/-- Function `IdentityPassThrough::process` from `player/src/lib.rs`: unzip the
incoming id, discard its backend, and re-zip with the backend given by
the hub. -/
def IdentityPassThrough.process (id : TypedId) (backend : Backend) : TypedId :=
  let (index, epoch, _backend) := id.unzip
  TypedId.zip index epoch backend

/-- The `gfx_select!` macro from `player/src/lib.rs`: an exhaustive match
on `id.backend()` invoking the method instantiated at that backend.  The
per-backend implementations are abstracted as a function from the
backend tag. -/
def gfx_select {α : Type} (id : TypedId) (impl : Backend → α) : α :=
  match id.backend with
  | .Vulkan => impl .Vulkan
  | .Metal => impl .Metal
  | .Dx12 => impl .Dx12
  | .Dx11 => impl .Dx11

/-- C1: the identity pass-through handler keeps the index and the epoch of
the incoming id and stamps it with the backend given by the hub, so
`gfx_select` on any id it returns dispatches to exactly that backend's
implementation. -/
theorem identity_pass_through_routes_to_creating_backend {α : Type}
    (id : TypedId) (backend : Backend) (impl : Backend → α) :
    (IdentityPassThrough.process id backend).index = id.index ∧
    (IdentityPassThrough.process id backend).epoch = id.epoch ∧
    (IdentityPassThrough.process id backend).backend = backend ∧
    gfx_select (IdentityPassThrough.process id backend) impl = impl backend := by
  refine ⟨rfl, rfl, rfl, ?_⟩
  cases backend <;> rfl

/-- Enum `trace::QueryType` from `wgpu-core/src/device/trace.rs`; also stands
for `wgt::QueryType`, which has the same three variants (the arm for
`CreateQuerySet` converts between them variant by variant).
`wgt::PipelineStatisticName` is external and abstracted as `Nat`. -/
inductive QueryType
  | Occlusion
  | PipelineStatistics (pipeline_statistics : List Nat)
  | Timestamp
deriving DecidableEq, Repr

/-- Struct `trace::QuerySetDescriptor` from `wgpu-core/src/device/trace.rs`. -/
structure QuerySetDescriptor where
  type_ : QueryType
  count : Nat
deriving DecidableEq, Repr

/-- Range `std::ops::Range<BufferAddress>` as carried by `WriteBuffer`; the
Rust field `end` is called `stop` here because `end` is reserved. -/
structure BufferRange where
  start : Nat
  stop : Nat
deriving DecidableEq, Repr

/-- Enum `trace::Command` from `wgpu-core/src/device/trace.rs`.  Copy views,
extents, pass payloads and attachment descriptors are external types,
abstracted as `Nat`. -/
inductive Command
  | CopyBufferToBuffer (src : Nat) (src_offset : Nat) (dst : Nat)
      (dst_offset : Nat) (size : Nat)
  | CopyBufferToTexture (src : Nat) (dst : Nat) (size : Nat)
  | CopyTextureToBuffer (src : Nat) (dst : Nat) (size : Nat)
  | CopyTextureToTexture (src : Nat) (dst : Nat) (size : Nat)
  | RunComputePass (base : Nat)
  | RunRenderPass (base : Nat) (target_colors : List Nat)
      (target_depth_stencil : Option Nat)
deriving DecidableEq, Repr

/-- Enum `trace::Action` from `wgpu-core/src/device/trace.rs`.  Descriptor
payloads of external `wgt` type are abstracted as `Nat`; file names are
`String`; ids are `Nat`. -/
inductive Action
  | Init (desc : Nat) (backend : Backend)
  | CreateBuffer (id : Nat) (desc : Nat)
  | DestroyBuffer (id : Nat)
  | CreateTexture (id : Nat) (desc : Nat)
  | DestroyTexture (id : Nat)
  | CreateTextureView (id : Nat) (parent_id : Nat) (desc : Option Nat)
  | DestroyTextureView (id : Nat)
  | CreateSampler (id : Nat) (desc : Nat)
  | DestroySampler (id : Nat)
  | CreateSwapChain (id : Nat) (desc : Nat)
  | GetSwapChainTexture (id : Option Nat) (parent_id : Nat)
  | PresentSwapChain (id : Nat)
  | CreateBindGroupLayout (id : Nat) (label : String) (entries : List Nat)
  | DestroyBindGroupLayout (id : Nat)
  | CreatePipelineLayout (id : Nat) (bind_group_layouts : List Nat)
      (push_constant_ranges : List Nat)
  | DestroyPipelineLayout (id : Nat)
  | CreateBindGroup (id : Nat) (label : String) (layout_id : Nat)
      (entries : List Nat)
  | DestroyBindGroup (id : Nat)
  | CreateShaderModule (id : Nat) (data : String)
  | DestroyShaderModule (id : Nat)
  | CreateComputePipeline (id : Nat) (desc : Nat)
  | DestroyComputePipeline (id : Nat)
  | CreateRenderPipeline (id : Nat) (desc : Nat)
  | DestroyRenderPipeline (id : Nat)
  | CreateRenderBundle (id : Nat) (desc : Nat) (base : Nat)
  | DestroyRenderBundle (id : Nat)
  | CreateQuerySet (id : Nat) (desc : QuerySetDescriptor)
  | DestroyQuerySet (id : Nat)
  | WriteBuffer (id : Nat) (data : String) (range : BufferRange) (queued : Bool)
  | WriteTexture (to_ : Nat) (data : String) (layout : Nat) (size : Nat)
  | Submit (index : Nat) (commands : List Command)
deriving DecidableEq, Repr

/-- One hub/backend call performed by the player during replay.  Each
constructor names the `Global` method invoked by `player/src/lib.rs`,
in source argument order (labels excepted: a `Label` only feeds a raw C
pointer and carries no replay semantics). -/
inductive Effect
  | deviceMaintainIds (device : Nat)
  | deviceCreateBuffer (device : Nat) (desc : Nat) (id : Nat)
  | bufferDestroy (id : Nat)
  | deviceCreateTexture (device : Nat) (desc : Nat) (id : Nat)
  | textureDestroy (id : Nat)
  | textureCreateView (parent_id : Nat) (desc : Option Nat) (id : Nat)
  | textureViewDestroy (id : Nat)
  | deviceCreateSampler (device : Nat) (desc : Nat) (id : Nat)
  | samplerDestroy (id : Nat)
  | swapChainGetCurrentTextureView (parent_id : Nat) (id : Nat)
  | deviceCreateBindGroupLayout (device : Nat) (label : String)
      (entries : List Nat) (id : Nat)
  | bindGroupLayoutDestroy (id : Nat)
  | deviceCreatePipelineLayout (device : Nat) (bind_group_layouts : List Nat)
      (push_constant_ranges : List Nat) (id : Nat)
  | pipelineLayoutDestroy (id : Nat)
  | deviceCreateBindGroup (device : Nat) (label : String) (layout_id : Nat)
      (entries : List Nat) (id : Nat)
  | bindGroupDestroy (id : Nat)
  | readFile (data : String)
  | deviceCreateShaderModule (device : Nat) (spv : List Nat) (id : Nat)
  | shaderModuleDestroy (id : Nat)
  | deviceCreateComputePipeline (device : Nat) (desc : Nat) (id : Nat)
  | computePipelineDestroy (id : Nat)
  | deviceCreateRenderPipeline (device : Nat) (desc : Nat) (id : Nat)
  | renderPipelineDestroy (id : Nat)
  | renderBundleEncoderFinish (desc : Nat) (base : Nat) (id : Nat)
  | renderBundleDestroy (id : Nat)
  | deviceCreateQuerySet (device : Nat) (desc : QuerySetDescriptor) (id : Nat)
  | querySetDestroy (id : Nat)
  | queueWriteBuffer (device : Nat) (id : Nat) (offset : Nat) (data : List Nat)
  | deviceWaitForBuffer (device : Nat) (id : Nat)
  | deviceSetBufferSubData (device : Nat) (id : Nat) (offset : Nat)
      (data : List Nat)
  | queueWriteTexture (device : Nat) (to_ : Nat) (data : List Nat)
      (layout : Nat) (size : Nat)
  | deviceCreateCommandEncoder (device : Nat) (id : Nat)
  | commandEncoderCopyBufferToBuffer (encoder : Nat) (src : Nat)
      (src_offset : Nat) (dst : Nat) (dst_offset : Nat) (size : Nat)
  | commandEncoderCopyBufferToTexture (encoder : Nat) (src : Nat) (dst : Nat)
      (size : Nat)
  | commandEncoderCopyTextureToBuffer (encoder : Nat) (src : Nat) (dst : Nat)
      (size : Nat)
  | commandEncoderCopyTextureToTexture (encoder : Nat) (src : Nat) (dst : Nat)
      (size : Nat)
  | commandEncoderRunComputePass (encoder : Nat) (base : Nat)
  | commandEncoderRunRenderPass (encoder : Nat) (base : Nat)
      (target_colors : List Nat) (target_depth_stencil : Option Nat)
  | commandEncoderFinish (encoder : Nat)
  | queueSubmit (device : Nat) (command_buffers : List Nat)
deriving DecidableEq, Repr

/-- Outcome of running one player entry point: either it returns after
performing `effects`, or a `panic!` / failed `.unwrap()` aborts it after
the effects performed up to that point. -/
inductive ProcResult
  | ok (effects : List Effect)
  | panicked (effects : List Effect) (msg : String)
deriving DecidableEq, Repr

/-- The body of the `for` loop of `GlobalPlay::encode_commands`: the
match mapping one `trace::Command` to one backend encoder call. -/
def encodeStep (encoder : Nat) : Command → Effect
  | .CopyBufferToBuffer src src_offset dst dst_offset size =>
      .commandEncoderCopyBufferToBuffer encoder src src_offset dst dst_offset size
  | .CopyBufferToTexture src dst size =>
      .commandEncoderCopyBufferToTexture encoder src dst size
  | .CopyTextureToBuffer src dst size =>
      .commandEncoderCopyTextureToBuffer encoder src dst size
  | .CopyTextureToTexture src dst size =>
      .commandEncoderCopyTextureToTexture encoder src dst size
  | .RunComputePass base =>
      .commandEncoderRunComputePass encoder base
  | .RunRenderPass base target_colors target_depth_stencil =>
      .commandEncoderRunRenderPass encoder base target_colors target_depth_stencil

/-- The `for command in commands` loop of `GlobalPlay::encode_commands`:
one encoder call per command, in list order. -/
def encodeLoop (encoder : Nat) : List Command → List Effect
  | [] => []
  | command :: rest => encodeStep encoder command :: encodeLoop encoder rest

/-- Function `GlobalPlay::encode_commands` from `player/src/lib.rs`: replay every
command, then `command_encoder_finish` the encoder.  Finishing yields
the command buffer id; in `wgpu-core` a finished encoder id and its
command buffer id coincide, so the function returns `encoder`. -/
def encode_commands (encoder : Nat) (commands : List Command) :
    List Effect × Nat :=
  (encodeLoop encoder commands ++ [.commandEncoderFinish encoder], encoder)

/-- Function `GlobalPlay::process` from `player/src/lib.rs`.  `fs` models
`std::fs::read` relative to the trace directory `dir` (`none` = I/O
failure, which the player unwraps into a panic); `encoderAlloc` models
the id handed out by `comb_manager.alloc(device.backend())` in the
`Submit` arm. -/
def process (fs : String → Option (List Nat)) (device : Nat)
    (encoderAlloc : Nat) (action : Action) : ProcResult :=
  match action with
  | .Init _desc _backend =>
      .panicked [] "Unexpected Action::Init: has to be the first action only"
  | .CreateSwapChain _id _desc =>
      .panicked [] "Unexpected SwapChain action: winit feature is not enabled"
  | .PresentSwapChain _id =>
      .panicked [] "Unexpected SwapChain action: winit feature is not enabled"
  | .CreateBuffer id desc =>
      .ok [.deviceMaintainIds device, .deviceCreateBuffer device desc id]
  | .DestroyBuffer id => .ok [.bufferDestroy id]
  | .CreateTexture id desc =>
      .ok [.deviceMaintainIds device, .deviceCreateTexture device desc id]
  | .DestroyTexture id => .ok [.textureDestroy id]
  | .CreateTextureView id parent_id desc =>
      .ok [.deviceMaintainIds device, .textureCreateView parent_id desc id]
  | .DestroyTextureView id => .ok [.textureViewDestroy id]
  | .CreateSampler id desc =>
      .ok [.deviceMaintainIds device, .deviceCreateSampler device desc id]
  | .DestroySampler id => .ok [.samplerDestroy id]
  | .GetSwapChainTexture id parent_id =>
      match id with
      | some id => .ok [.swapChainGetCurrentTextureView parent_id id]
      | none => .ok []
  | .CreateBindGroupLayout id label entries =>
      .ok [.deviceCreateBindGroupLayout device label entries id]
  | .DestroyBindGroupLayout id => .ok [.bindGroupLayoutDestroy id]
  | .CreatePipelineLayout id bind_group_layouts push_constant_ranges =>
      .ok [.deviceMaintainIds device,
           .deviceCreatePipelineLayout device bind_group_layouts
             push_constant_ranges id]
  | .DestroyPipelineLayout id => .ok [.pipelineLayoutDestroy id]
  | .CreateBindGroup id label layout_id entries =>
      .ok [.deviceMaintainIds device,
           .deviceCreateBindGroup device label layout_id entries id]
  | .DestroyBindGroup id => .ok [.bindGroupDestroy id]
  | .CreateShaderModule id data =>
      match fs data with
      | none => .panicked [.readFile data] "called Result::unwrap on an Err value"
      | some byte_vec =>
          .ok [.readFile data, .deviceCreateShaderModule device byte_vec id]
  | .DestroyShaderModule id => .ok [.shaderModuleDestroy id]
  | .CreateComputePipeline id desc =>
      .ok [.deviceMaintainIds device,
           .deviceCreateComputePipeline device desc id]
  | .DestroyComputePipeline id => .ok [.computePipelineDestroy id]
  | .CreateRenderPipeline id desc =>
      .ok [.deviceMaintainIds device,
           .deviceCreateRenderPipeline device desc id]
  | .DestroyRenderPipeline id => .ok [.renderPipelineDestroy id]
  | .CreateRenderBundle id desc base =>
      .ok [.renderBundleEncoderFinish desc base id]
  | .DestroyRenderBundle id => .ok [.renderBundleDestroy id]
  | .CreateQuerySet id desc =>
      let type_ :=
        match desc.type_ with
        | QueryType.Occlusion => QueryType.Occlusion
        | QueryType.PipelineStatistics pipeline_statistics =>
            QueryType.PipelineStatistics pipeline_statistics
        | QueryType.Timestamp => QueryType.Timestamp
      .ok [.deviceCreateQuerySet device ⟨type_, desc.count⟩ id]
  | .DestroyQuerySet id => .ok [.querySetDestroy id]
  | .WriteBuffer id data range queued =>
      match fs data with
      | none => .panicked [.readFile data] "called Result::unwrap on an Err value"
      | some bin =>
          let size := range.stop - range.start
          if queued then
            .ok [.readFile data, .queueWriteBuffer device id range.start bin]
          else if size ≤ bin.length then
            .ok [.readFile data, .deviceWaitForBuffer device id,
                 .deviceSetBufferSubData device id range.start (bin.take size)]
          else
            .panicked [.readFile data, .deviceWaitForBuffer device id]
              "range end index out of range for slice"
  | .WriteTexture to_ data layout size =>
      match fs data with
      | none => .panicked [.readFile data] "called Result::unwrap on an Err value"
      | some bin =>
          .ok [.readFile data, .queueWriteTexture device to_ bin layout size]
  | .Submit _index commands =>
      let encoder := encoderAlloc
      let (effects, comb) := encode_commands encoder commands
      .ok ([.deviceCreateCommandEncoder device encoder] ++ effects ++
           [.queueSubmit device [comb]])

lemma encodeLoop_eq_map (encoder : Nat) (commands : List Command) :
    encodeLoop encoder commands = commands.map (encodeStep encoder) := by
  induction commands with
  | nil => rfl
  | cons c rest ih => simp [encodeLoop, ih]

lemma encodeStep_ne_finish (encoder x : Nat) (c : Command) :
    encodeStep encoder c ≠ .commandEncoderFinish x := by
  cases c <;> simp [encodeStep]

lemma encodeStep_ne_queueSubmit (encoder d : Nat) (l : List Nat) (c : Command) :
    encodeStep encoder c ≠ .queueSubmit d l := by
  cases c <;> simp [encodeStep]

lemma encodeStep_ne_createEncoder (encoder d x : Nat) (c : Command) :
    encodeStep encoder c ≠ .deviceCreateCommandEncoder d x := by
  cases c <;> simp [encodeStep]

lemma count_map_encodeStep_eq_zero (encoder : Nat) (commands : List Command)
    (x : Effect) (h : ∀ c : Command, encodeStep encoder c ≠ x) :
    (commands.map (encodeStep encoder)).count x = 0 := by
  rw [List.count_eq_zero]
  intro hmem
  rcases List.mem_map.mp hmem with ⟨c, _, hc⟩
  exact h c hc

/-- C2: replaying a `Submit` action creates exactly one command encoder,
encodes each carried command in order through exactly one backend
encoder call each, finishes the encoder into one command buffer, and
submits that buffer exactly once — also when the command list is
empty. -/
theorem submit_encodes_each_command_once_and_submits_once
    (fs : String → Option (List Nat)) (device encoderAlloc index : Nat)
    (commands : List Command) :
    ∃ effects : List Effect,
      process fs device encoderAlloc (.Submit index commands) = .ok effects ∧
      effects = .deviceCreateCommandEncoder device encoderAlloc ::
        (commands.map (encodeStep encoderAlloc) ++
         [.commandEncoderFinish encoderAlloc,
          .queueSubmit device [encoderAlloc]]) ∧
      effects.count (.deviceCreateCommandEncoder device encoderAlloc) = 1 ∧
      effects.count (.commandEncoderFinish encoderAlloc) = 1 ∧
      effects.count (.queueSubmit device [encoderAlloc]) = 1 := by
  refine ⟨_, ?_, rfl, ?_, ?_, ?_⟩
  · simp [process, encode_commands, encodeLoop_eq_map, List.append_assoc]
  · simp [List.count_cons, List.count_append,
      count_map_encodeStep_eq_zero encoderAlloc commands _
        (fun c => encodeStep_ne_createEncoder encoderAlloc device encoderAlloc c)]
  · simp [List.count_cons, List.count_append,
      count_map_encodeStep_eq_zero encoderAlloc commands _
        (fun c => encodeStep_ne_finish encoderAlloc encoderAlloc c)]
  · simp [List.count_cons, List.count_append,
      count_map_encodeStep_eq_zero encoderAlloc commands _
        (fun c => encodeStep_ne_queueSubmit encoderAlloc device [encoderAlloc] c)]

/-- C5 counterexample: replaying `CreateQuerySet` performs only the
creation call — `device_maintain_ids` is not invoked, although the claim
exempts only `CreateBindGroupLayout` and `CreateShaderModule`. -/
theorem create_query_set_skips_maintain_ids :
    process (fun _ => none) 0 0
        (.CreateQuerySet 5 ⟨QueryType.Occlusion, 4⟩) =
      .ok [.deviceCreateQuerySet 0 ⟨QueryType.Occlusion, 4⟩ 5] ∧
    Effect.deviceMaintainIds 0 ∉
      [Effect.deviceCreateQuerySet 0 ⟨QueryType.Occlusion, 4⟩ 5] := by
  exact ⟨rfl, by decide⟩

/-- C5 (amended): for every `Create*` action other than
`CreateBindGroupLayout`, `CreateShaderModule`, `CreateRenderBundle` and
`CreateQuerySet`, the identity counters are resynchronized
(`device_maintain_ids`) immediately before the creation call; the
`CreateRenderBundle` and `CreateQuerySet` arms invoke their creation
calls without resynchronizing. -/
theorem create_actions_maintain_ids_first
    (fs : String → Option (List Nat)) (device encoderAlloc : Nat) :
    (∀ id desc, process fs device encoderAlloc (.CreateBuffer id desc) =
      .ok [.deviceMaintainIds device, .deviceCreateBuffer device desc id]) ∧
    (∀ id desc, process fs device encoderAlloc (.CreateTexture id desc) =
      .ok [.deviceMaintainIds device, .deviceCreateTexture device desc id]) ∧
    (∀ id parent_id desc,
      process fs device encoderAlloc (.CreateTextureView id parent_id desc) =
      .ok [.deviceMaintainIds device, .textureCreateView parent_id desc id]) ∧
    (∀ id desc, process fs device encoderAlloc (.CreateSampler id desc) =
      .ok [.deviceMaintainIds device, .deviceCreateSampler device desc id]) ∧
    (∀ id bind_group_layouts push_constant_ranges,
      process fs device encoderAlloc
        (.CreatePipelineLayout id bind_group_layouts push_constant_ranges) =
      .ok [.deviceMaintainIds device,
           .deviceCreatePipelineLayout device bind_group_layouts
             push_constant_ranges id]) ∧
    (∀ id label layout_id entries,
      process fs device encoderAlloc
        (.CreateBindGroup id label layout_id entries) =
      .ok [.deviceMaintainIds device,
           .deviceCreateBindGroup device label layout_id entries id]) ∧
    (∀ id desc, process fs device encoderAlloc (.CreateComputePipeline id desc) =
      .ok [.deviceMaintainIds device,
           .deviceCreateComputePipeline device desc id]) ∧
    (∀ id desc, process fs device encoderAlloc (.CreateRenderPipeline id desc) =
      .ok [.deviceMaintainIds device,
           .deviceCreateRenderPipeline device desc id]) ∧
    (∀ id desc base,
      process fs device encoderAlloc (.CreateRenderBundle id desc base) =
      .ok [.renderBundleEncoderFinish desc base id]) ∧
    (∀ id type_ count,
      process fs device encoderAlloc
        (.CreateQuerySet id ⟨type_, count⟩) =
      .ok [.deviceCreateQuerySet device ⟨type_, count⟩ id]) := by
  refine ⟨fun _ _ => rfl, fun _ _ => rfl, fun _ _ _ => rfl, fun _ _ => rfl,
    fun _ _ _ => rfl, fun _ _ _ _ => rfl, fun _ _ => rfl, fun _ _ => rfl,
    fun _ _ _ => rfl, fun id type_ count => ?_⟩
  cases type_ <;> rfl

/-- C6: every `Init` action reaching `process` (the replay engine has
already left its initial state) panics with the protocol-violation
message and performs no hub or backend effect. -/
theorem init_during_running_is_fatal_without_effects
    (fs : String → Option (List Nat)) (device encoderAlloc desc : Nat)
    (backend : Backend) :
    process fs device encoderAlloc (.Init desc backend) =
      .panicked [] "Unexpected Action::Init: has to be the first action only" :=
  rfl

/-- C7 counterexample: `GetSwapChainTexture` with no recorded view id is
replayed as a no-op — it does not fail with a protocol violation. -/
theorem get_swap_chain_texture_does_not_fault :
    process (fun _ => none) 0 0 (.GetSwapChainTexture none 3) = .ok [] :=
  rfl

/-- C7 (amended): `CreateSwapChain` and `PresentSwapChain` fail fast with
a fatal protocol violation and no effect; `GetSwapChainTexture` does not
fault — it forwards the acquisition to the backend when a view id was
recorded and does nothing otherwise. -/
theorem swap_chain_create_present_fault_get_forwards
    (fs : String → Option (List Nat)) (device encoderAlloc : Nat) :
    (∀ id desc, process fs device encoderAlloc (.CreateSwapChain id desc) =
      .panicked [] "Unexpected SwapChain action: winit feature is not enabled") ∧
    (∀ id, process fs device encoderAlloc (.PresentSwapChain id) =
      .panicked [] "Unexpected SwapChain action: winit feature is not enabled") ∧
    (∀ parent_id,
      process fs device encoderAlloc (.GetSwapChainTexture none parent_id) =
        .ok []) ∧
    (∀ id parent_id,
      process fs device encoderAlloc (.GetSwapChainTexture (some id) parent_id) =
        .ok [.swapChainGetCurrentTextureView parent_id id]) :=
  ⟨fun _ _ => rfl, fun _ => rfl, fun _ => rfl, fun _ _ => rfl⟩

/-- C8: replaying `WriteBuffer` reads the blob from the trace directory;
a queued write is enqueued on the device queue, a non-queued write first
waits for the buffer to be idle and then writes exactly
`range.end - range.start` bytes of the blob at offset `range.start`. -/
theorem write_buffer_reads_blob_then_writes
    (fs : String → Option (List Nat)) (device encoderAlloc id : Nat)
    (data : String) (range : BufferRange) (queued : Bool) (bin : List Nat)
    (hfs : fs data = some bin)
    (hlen : range.stop - range.start ≤ bin.length) :
    process fs device encoderAlloc (.WriteBuffer id data range queued) =
      .ok (.readFile data ::
        (if queued then
          [.queueWriteBuffer device id range.start bin]
         else
          [.deviceWaitForBuffer device id,
           .deviceSetBufferSubData device id range.start
             (bin.take (range.stop - range.start))])) ∧
    (bin.take (range.stop - range.start)).length =
      range.stop - range.start := by
  constructor
  · cases queued <;> simp [process, hfs, hlen]
  · simp [List.length_take]
    omega

/-- C8 witness: a concrete four-byte blob written immediately (not
queued) over the range [0, 4). -/
theorem write_buffer_reads_blob_then_writes_witness :
    process (fun _ => some [7, 8, 9, 10]) 0 0
        (.WriteBuffer 2 "data1.bin" ⟨0, 4⟩ false) =
      .ok (.readFile "data1.bin" ::
        (if false then
          [.queueWriteBuffer 0 2 0 [7, 8, 9, 10]]
         else
          [.deviceWaitForBuffer 0 2,
           .deviceSetBufferSubData 0 2 0
             (List.take (BufferRange.stop ⟨0, 4⟩ - BufferRange.start ⟨0, 4⟩)
               [7, 8, 9, 10])])) ∧
    (List.take (BufferRange.stop ⟨0, 4⟩ - BufferRange.start ⟨0, 4⟩)
        [7, 8, 9, 10]).length =
      BufferRange.stop ⟨0, 4⟩ - BufferRange.start ⟨0, 4⟩ :=
  write_buffer_reads_blob_then_writes (fun _ => some [7, 8, 9, 10]) 0 0 2
    "data1.bin" ⟨0, 4⟩ false [7, 8, 9, 10] rfl (by decide)

/-- Modelled from the spec: `wgt::BufferUsage` is a bitmask of usage
flags; `COPY_DST` is the copy-destination capability bit (the `wgt`
crate is external to `src/`). -/
def BufferUsage.COPY_DST : Nat := 8

/-- Modelled from the spec: `BufferUsage::contains` tests that every bit
of `flag` is set in `usage`. -/
def BufferUsage.contains (usage flag : Nat) : Bool :=
  usage &&& flag = flag

/-- Modelled from the spec: pipeline stage masks are kept abstract; only
the mask of all buffer-using stages and the transfer stage appear in the
code under study (`hal::pso::PipelineStage` is external to `src/`). -/
inductive StageMask
  | allBufferStages
  | TRANSFER
deriving DecidableEq, Repr

/-- Modelled from the spec: `device::all_buffer_stages()` (defined in
`wgpu-core/src/device`, not under `src/`) is the mask of all pipeline
stages at which a buffer can be used. -/
def all_buffer_stages : StageMask := .allBufferStages

/-- Flags `hal::query::ResultFlags` as passed by `copy_query_pool_results`:
the `WAIT`, `WITH_AVAILABILITY` and `BITS_64` bits. -/
structure ResultFlags where
  WAIT : Bool
  WITH_AVAILABILITY : Bool
  BITS_64 : Bool
deriving DecidableEq, Repr

/-- Modelled from the spec: the `wgpu-core` buffer resource as read by
`command_encoder_resolve_query_set` — a raw backend handle plus its
usage bitmask (`resource.rs` is not under `src/`). -/
structure Buffer where
  raw : Nat
  usage : Nat
deriving DecidableEq, Repr

/-- Modelled from the spec: the `wgpu-core` query-set resource — a raw
backend pool handle, the query type of its slots and the slot count
(`resource.rs` is not under `src/`). -/
structure QuerySet where
  raw : Nat
  type_ : QueryType
  count : Nat
deriving DecidableEq, Repr

/-- One raw command recorded into the open command buffer by the query
module (`cmb_raw.pipeline_barrier` / `cmb_raw.copy_query_pool_results`). -/
inductive HalCmd
  | pipeline_barrier (src_stages : StageMask) (dst_stages : StageMask)
      (barriers : Option Unit)
  | copy_query_pool_results (pool : Nat) (first_query : Nat)
      (stop_query : Nat) (dst : Nat) (destination_offset : Nat)
      (stride : Nat) (flags : ResultFlags)
deriving DecidableEq, Repr

/-- Outcome of one query-module entry point: the raw commands it records,
or a failed `assert!` carrying the commands recorded before it fired. -/
inductive ResolveResult
  | ok (cmds : List HalCmd)
  | panicked (cmds : List HalCmd) (msg : String)
deriving DecidableEq, Repr

/-- Function `Global::command_encoder_resolve_query_set` from
`wgpu-core/src/command/query.rs`.  `dst_pending` models the optional
pending tracker transition returned by
`cmb.trackers.buffers.use_replace` (the tracker lives outside `src/`);
its `into_hal` image is abstracted as `Unit`. -/
def command_encoder_resolve_query_set (dst_buffer : Buffer)
    (dst_pending : Option Unit) (query_set : QuerySet)
    (first_query query_count destination_offset : Nat) : ResolveResult :=
  if BufferUsage.contains dst_buffer.usage BufferUsage.COPY_DST then
    let dst_barrier := dst_pending.map fun pending => pending
    .ok [.pipeline_barrier all_buffer_stages .TRANSFER dst_barrier,
         .copy_query_pool_results query_set.raw first_query
           (first_query + query_count) dst_buffer.raw destination_offset 16
           ⟨true, true, true⟩]
  else
    .panicked [] "Destination buffer usage must contain usage flag COPY_DST"

/-- C3: resolving into a destination buffer whose usage lacks `COPY_DST`
fails the precondition assertion, and the command buffer receives no new
commands — neither a barrier nor a copy. -/
theorem resolve_query_set_without_copy_dst_faults_with_no_commands
    (dst_buffer : Buffer) (dst_pending : Option Unit) (query_set : QuerySet)
    (first_query query_count destination_offset : Nat)
    (h : ¬ BufferUsage.contains dst_buffer.usage BufferUsage.COPY_DST) :
    command_encoder_resolve_query_set dst_buffer dst_pending query_set
      first_query query_count destination_offset =
    .panicked [] "Destination buffer usage must contain usage flag COPY_DST" := by
  simp [command_encoder_resolve_query_set, h]

/-- C3 witness: a destination buffer with usage bitmask 0. -/
theorem resolve_query_set_without_copy_dst_faults_witness :
    command_encoder_resolve_query_set ⟨1, 0⟩ none ⟨2, QueryType.Timestamp, 4⟩
      0 2 0 =
    .panicked [] "Destination buffer usage must contain usage flag COPY_DST" :=
  resolve_query_set_without_copy_dst_faults_with_no_commands
    ⟨1, 0⟩ none ⟨2, QueryType.Timestamp, 4⟩ 0 2 0 (by decide)

/-- C4: a successful resolve records, in order, a pipeline barrier from
all buffer stages to the transfer stage and then the copy of queries
[first_query, first_query + query_count) with the WAIT,
WITH_AVAILABILITY and BITS_64 flags and a fixed 16-byte per-entry
stride; the recorded commands do not depend on the query set's query
type. -/
theorem resolve_query_set_success_barrier_then_fixed_stride_copy
    (dst_buffer : Buffer) (dst_pending : Option Unit) (query_set : QuerySet)
    (first_query query_count destination_offset : Nat)
    (h : BufferUsage.contains dst_buffer.usage BufferUsage.COPY_DST) :
    command_encoder_resolve_query_set dst_buffer dst_pending query_set
      first_query query_count destination_offset =
    .ok [.pipeline_barrier all_buffer_stages .TRANSFER dst_pending,
         .copy_query_pool_results query_set.raw first_query
           (first_query + query_count) dst_buffer.raw destination_offset 16
           ⟨true, true, true⟩] ∧
    (∀ type1 type2 : QueryType,
      command_encoder_resolve_query_set dst_buffer dst_pending
        ⟨query_set.raw, type1, query_set.count⟩ first_query query_count
        destination_offset =
      command_encoder_resolve_query_set dst_buffer dst_pending
        ⟨query_set.raw, type2, query_set.count⟩ first_query query_count
        destination_offset) := by
  constructor
  · simp [command_encoder_resolve_query_set, h]
  · intro type1 type2
    simp [command_encoder_resolve_query_set]

/-- C4 witness: a destination buffer holding exactly the `COPY_DST`
bit. -/
theorem resolve_query_set_success_witness :
    (command_encoder_resolve_query_set ⟨1, 8⟩ (some ()) ⟨2, QueryType.Timestamp, 4⟩
        0 2 256 =
      .ok [.pipeline_barrier all_buffer_stages .TRANSFER (some ()),
           .copy_query_pool_results 2 0 (0 + 2) 1 256 16 ⟨true, true, true⟩]) ∧
    (∀ type1 type2 : QueryType,
      command_encoder_resolve_query_set ⟨1, 8⟩ (some ()) ⟨2, type1, 4⟩ 0 2 256 =
      command_encoder_resolve_query_set ⟨1, 8⟩ (some ()) ⟨2, type2, 4⟩ 0 2 256) :=
  resolve_query_set_success_barrier_then_fixed_stride_copy
    ⟨1, 8⟩ (some ()) ⟨2, QueryType.Timestamp, 4⟩ 0 2 256 (by decide)

/-- Struct `Trace` from `wgpu-core/src/device/trace.rs`.  `file` is the content
written to `trace.ron` so far; `blobs` are the binary files successfully
written next to it; the `ron::ser::PrettyConfig` field carries no
observable state and is omitted. -/
structure Trace where
  path : String
  file : String
  binary_id : Nat
  blobs : List (String × List Nat)
deriving DecidableEq, Repr

/-- Function `Trace::new`: create `trace.ron` under `path` and write the opening
list delimiter. -/
def Trace.new (path : String) : Trace :=
  { path := path, file := "[\n", binary_id := 0, blobs := [] }

/-- Function `Trace::make_binary`: advance the counter, build the name
`data<N>.<ext>`, attempt the blob write with its result discarded
(`let _ = std::fs::write(..)`), and return the name.  `writeOk` models
whether that write succeeded. -/
def Trace.make_binary (t : Trace) (kind : String) (data : List Nat)
    (writeOk : Bool) : String × Trace :=
  let binary_id := t.binary_id + 1
  let name := "data" ++ toString binary_id ++ "." ++ kind
  (name,
   { t with
     binary_id := binary_id,
     blobs := if writeOk then t.blobs ++ [(name, data)] else t.blobs })

/-- Function `Trace::add`: serialize the action (the external `ron` serializer is
modelled by the oracle `ser`); on success write the record followed by
`,\n` (`writeln!` with a trailing comma), on failure log a warning and
drop the record. -/
def Trace.add (ser : Action → Option String) (t : Trace) (action : Action) :
    Trace :=
  match ser action with
  | some string => { t with file := t.file ++ string ++ ",\n" }
  | none => t

/-- Destructor `impl Drop for Trace`: write the closing list delimiter. -/
def Trace.drop (t : Trace) : Trace :=
  { t with file := t.file ++ "]" }

/-- The log body produced by a sequence of `add` calls: one record plus
separator per action the serializer accepts, in order, failures
dropped. -/
def recordedEntries (ser : Action → Option String) : List Action → String
  | [] => ""
  | action :: rest =>
    match ser action with
    | some string => string ++ ",\n" ++ recordedEntries ser rest
    | none => recordedEntries ser rest

/-- The whole `trace.ron` content of a capture session: construction,
one `add` per action, then drop. -/
def captureFile (ser : Action → Option String) (path : String)
    (actions : List Action) : String :=
  (Trace.drop (actions.foldl (Trace.add ser) (Trace.new path))).file

lemma foldl_add_file (ser : Action → Option String) (actions : List Action)
    (t : Trace) :
    (actions.foldl (Trace.add ser) t).file =
      t.file ++ recordedEntries ser actions := by
  induction actions generalizing t with
  | nil => simp [recordedEntries]
  | cons action rest ih =>
      cases h : ser action with
      | none =>
          simp [List.foldl_cons, Trace.add, h, recordedEntries, ih]
      | some string =>
          simp [List.foldl_cons, Trace.add, h, recordedEntries, ih t,
            String.append_assoc]
          rw [ih, String.append_assoc, String.append_assoc]

/-- C9: a record whose serialization fails is dropped without writing and
without aborting capture; a record whose serialization succeeds is
written followed by the separator — also when it is the last record —
and the whole log is wrapped in list delimiters, opened at construction
and closed at drop. -/
theorem trace_add_drops_failures_and_separates_every_record
    (ser : Action → Option String) (t : Trace) (a b : Action) (s : String)
    (path : String) (actions : List Action)
    (ha : ser a = none) (hb : ser b = some s) :
    Trace.add ser t a = t ∧
    (Trace.add ser t b).file = t.file ++ s ++ ",\n" ∧
    captureFile ser path actions =
      "[\n" ++ recordedEntries ser actions ++ "]" := by
  refine ⟨?_, ?_, ?_⟩
  · simp [Trace.add, ha]
  · simp [Trace.add, hb, String.append_assoc]
  · simp [captureFile, Trace.drop, foldl_add_file, Trace.new]

/-- A concrete serializer for the C9 witness: fails on `Init`, succeeds
with the fixed record text everywhere else. -/
def serWitness : Action → Option String
  | .Init _ _ => none
  | _ => some "record"

/-- C9 witness: a serializer failing on `Init` and succeeding on
`DestroyBuffer`, run over a capture of three actions whose middle record
fails to serialize. -/
theorem trace_add_drops_failures_witness :
    (Trace.add serWitness (Trace.new "dir") (.Init 0 .Vulkan) =
       Trace.new "dir" ∧
     (Trace.add serWitness (Trace.new "dir") (.DestroyBuffer 1)).file =
       (Trace.new "dir").file ++ "record" ++ ",\n" ∧
     captureFile serWitness "dir"
         [.DestroyBuffer 1, .Init 0 .Vulkan, .DestroyBuffer 1] =
       "[\n" ++ recordedEntries serWitness
         [.DestroyBuffer 1, .Init 0 .Vulkan, .DestroyBuffer 1] ++ "]") :=
  trace_add_drops_failures_and_separates_every_record serWitness
    (Trace.new "dir") (.Init 0 .Vulkan) (.DestroyBuffer 1) "record" "dir"
    [.DestroyBuffer 1, .Init 0 .Vulkan, .DestroyBuffer 1] rfl rfl

/-- Names returned by a run of `make_binary` calls starting from a
counter value: the i-th call yields `data<start+i+1>.<ext_i>`,
independent of the blob data and of whether the disk write succeeds. -/
def expectedNames (start : Nat) : List (String × List Nat × Bool) → List String
  | [] => []
  | (kind, _, _) :: rest =>
      ("data" ++ toString (start + 1) ++ "." ++ kind) ::
        expectedNames (start + 1) rest

/-- A sequence of `make_binary` calls threaded through the trace state,
returning the filenames in call order together with the final state. -/
def runMakeBinary : Trace → List (String × List Nat × Bool) →
    List String × Trace
  | t, [] => ([], t)
  | t, (kind, data, writeOk) :: rest =>
      let (name, t2) := t.make_binary kind data writeOk
      let (names, t3) := runMakeBinary t2 rest
      (name :: names, t3)

/-- C10: the N-th `make_binary` call on a trace returns
`data<N>.<ext>` with N = initial counter + position + 1 (so N starts at
1 on a fresh trace) and advances the counter by exactly one per call,
regardless of the blob kind or data and even when the disk write of the
blob fails. -/
theorem make_binary_names_are_sequential (t : Trace)
    (calls : List (String × List Nat × Bool)) :
    (runMakeBinary t calls).1 = expectedNames t.binary_id calls ∧
    (runMakeBinary t calls).2.binary_id = t.binary_id + calls.length := by
  induction calls generalizing t with
  | nil => simp [runMakeBinary, expectedNames]
  | cons call rest ih =>
      obtain ⟨kind, data, writeOk⟩ := call
      have h := ih { t with
        binary_id := t.binary_id + 1,
        blobs := if writeOk then t.blobs ++ [("data" ++
          toString (t.binary_id + 1) ++ "." ++ kind, data)] else t.blobs }
      simp [runMakeBinary, Trace.make_binary, expectedNames, h.1, h.2]
      omega

end WgpuPlayer
